import Mathlib

/-!
# devCamper API: authentication, session and role gate

A shallow embedding of `middleware/auth.js`, `models/User.js` and
`controllers/auth.js`.  Library calls (jsonwebtoken, bcryptjs, crypto,
sendEmail) and the sources of nondeterminism (`Date.now()`, random bytes,
salts, mail delivery) are parameters of the definitions.  A handler is a
function from its inputs to the list of observable calls it makes
(`res.json`, `next`, `save`, ...), in program order.
-/

set_option autoImplicit false

namespace DevCamper

/-! ## JavaScript strings -/

/-- The pieces of `s.split(sep)` for a one-character separator, on the
characters of `s`. -/
def splitChars (sep : Char) : List Char → List (List Char)
  | [] => [[]]
  | c :: cs =>
    if c = sep then [] :: splitChars sep cs
    else
      match splitChars sep cs with
      | [] => [[c]]
      | p :: ps => (c :: p) :: ps

/-- `s.split(' ')`. -/
def split (s : String) : List String :=
  (splitChars (Char.ofNat 32) s.data).map String.mk

/-- `s.startsWith(p)` on characters. -/
def startsWithChars : List Char → List Char → Bool
  | _, [] => true
  | [], _ :: _ => false
  | c :: cs, d :: ds => c == d && startsWithChars cs ds

/-- `s.startsWith(p)`. -/
def startsWith (s p : String) : Bool :=
  startsWithChars s.data p.data

/-- Truthiness of a value that is `undefined` or a string: the empty
string and `undefined` are falsy. -/
def truthy : Option String → Bool
  | none => false
  | some s => s != ""

/-- `s.length`: the number of UTF-16 code units. -/
def jsLength (s : String) : Nat :=
  (s.data.map (fun c => if c.toNat < 65536 then 1 else 2)).sum

/-! ## Regular expressions -/

/-- A regular expression over characters; `set p` is a character class. -/
inductive Regex where
  | nothing
  | eps
  | set (p : Char → Bool)
  | seq (a b : Regex)
  | alt (a b : Regex)
  | star (a : Regex)

/-- Whether the expression matches the empty string. -/
def Regex.nullable : Regex → Bool
  | Regex.nothing => false
  | Regex.eps => true
  | Regex.set _ => false
  | Regex.seq a b => a.nullable && b.nullable
  | Regex.alt a b => a.nullable || b.nullable
  | Regex.star _ => true

/-- The expression for what may follow the character `c`. -/
def Regex.deriv (c : Char) : Regex → Regex
  | Regex.nothing => Regex.nothing
  | Regex.eps => Regex.nothing
  | Regex.set p => if p c then Regex.eps else Regex.nothing
  | Regex.seq a b =>
    if a.nullable then Regex.alt (Regex.seq (a.deriv c) b) (b.deriv c)
    else Regex.seq (a.deriv c) b
  | Regex.alt a b => Regex.alt (a.deriv c) (b.deriv c)
  | Regex.star a => Regex.seq (a.deriv c) (Regex.star a)

/-- The call `/^r$/.test(s)`: the whole string matches `r`. -/
def Regex.test (r : Regex) (s : String) : Bool :=
  (s.data.foldl (fun q c => q.deriv c) r).nullable

/-- One or more: `r+`. -/
def Regex.plus (r : Regex) : Regex :=
  Regex.seq r (Regex.star r)

/-- At most one: `r?`. -/
def Regex.opt (r : Regex) : Regex :=
  Regex.alt Regex.eps r

/-- The class `\w`: ASCII letters, digits and the underscore. -/
def wordChar (c : Char) : Bool :=
  (48 ≤ c.toNat && c.toNat ≤ 57) || (65 ≤ c.toNat && c.toNat ≤ 90) ||
    (97 ≤ c.toNat && c.toNat ≤ 122) || c.toNat = 95

/-- The part `\w+([\.-]?\w+)*` of the email pattern. -/
def wordRuns : Regex :=
  Regex.seq (Regex.plus (Regex.set wordChar))
    (Regex.star
      (Regex.seq (Regex.opt (Regex.set (fun c => c.toNat = 46 || c.toNat = 45)))
        (Regex.plus (Regex.set wordChar))))

/-- The `match` pattern of the `email` path:
`^\w+([\.-]?\w+)*@\w+([\.-]?\w+)*(\.\w{2,3})+$`. -/
def emailPattern : Regex :=
  Regex.seq wordRuns
    (Regex.seq (Regex.set (fun c => c.toNat = 64))
      (Regex.seq wordRuns
        (Regex.plus
          (Regex.seq (Regex.set (fun c => c.toNat = 46))
            (Regex.seq (Regex.set wordChar)
              (Regex.seq (Regex.set wordChar) (Regex.opt (Regex.set wordChar))))))))

/-! ## Errors -/

/-- Modelled from the spec: `utils/errorResponse` is not among the sources;
`new ErrorResponse(message, statusCode)` is an error that carries its
message and the status code the error boundary answers with. -/
structure ErrorResponse where
  message : String
  statusCode : Nat
  deriving DecidableEq, Repr

/-- What a handler can throw or hand to `next`; a validation error lists
the failed paths, each with the kind of the validator that failed. -/
inductive Thrown where
  | errorResponse (e : ErrorResponse)
  | typeError (message : String)
  | validationError (errors : List (String × String))
  | illegalArguments
  | headersSent
  deriving DecidableEq, Repr

/-! ## The credential store -/

/-- A persisted user record (the fields of `UserSchema`). -/
structure User where
  _id : String
  name : String
  email : String
  role : String
  password : String
  resetPasswordToken : Option String
  resetPasswordExpire : Option Nat
  createdAt : Nat
  deriving DecidableEq, Repr

/-- A Mongoose document of the User model: the loaded fields (`password`
is `none` when it was not selected, or set to `undefined`) and whether
`isModified('password')` holds. -/
structure UserDoc where
  _id : String
  name : String
  email : String
  role : String
  password : Option String
  resetPasswordToken : Option String
  resetPasswordExpire : Option Nat
  createdAt : Nat
  passwordModified : Bool
  deriving DecidableEq, Repr

/-- The users collection. -/
abbrev Store := List User

/-- The document built from a record by a query; `password` has
`select: false` and is loaded only on `.select('+password')`. -/
def load (selectPassword : Bool) (u : User) : UserDoc where
  _id := u._id
  name := u.name
  email := u.email
  role := u.role
  password := if selectPassword then some u.password else none
  resetPasswordToken := u.resetPasswordToken
  resetPasswordExpire := u.resetPasswordExpire
  createdAt := u.createdAt
  passwordModified := false

/-- `User.findById(id)`: `none` is `null`. -/
def findById (store : Store) (id : String) : Option UserDoc :=
  (store.find? (fun u => u._id == id)).map (load false)

/-! ## middleware/auth.js -/

/-- The parts of a request the session middleware reads and writes:
`req.headers.authorization`, `req.cookies.token` and `req.user`
(`none`: never assigned, `some none`: `null`). -/
structure Request where
  authorization : Option String
  cookieToken : Option String
  user : Option (Option UserDoc)
  deriving DecidableEq, Repr

/-- The decoded payload of a verified token. -/
structure JwtPayload where
  id : String
  deriving DecidableEq, Repr

/-- What a middleware did: the request as it left it and its calls of
`next`, in order (`none`: `next()`, `some e`: `next(e)`). -/
structure Passed where
  req : Request
  nextCalls : List (Option ErrorResponse)
  deriving DecidableEq, Repr

/-- Lines 8-18 of `protect`: the value of `token` before the existence
check. -/
def extractToken (req : Request) : Option String :=
  if truthy req.authorization &&
      startsWith (req.authorization.getD "") "Bearer" then
    (split (req.authorization.getD ""))[1]?
  else if truthy req.cookieToken then
    req.cookieToken
  else
    none

/-- Lines 25-32 of `protect`: the `try` block.  `jwtVerify token` is
`jwt.verify(token, process.env.JWT_SECRET)`, `none` when it throws. -/
def verifyToken (jwtVerify : String → Option JwtPayload) (store : Store)
    (req : Request) (token : String) : Passed :=
  match jwtVerify token with
  | some decoded =>
    ⟨{ req with user := some (findById store decoded.id) }, [none]⟩
  | none =>
    ⟨req, [some ⟨"Not authorized to access this route", 401⟩]⟩

/-- `exports.protect`. -/
def protect (jwtVerify : String → Option JwtPayload) (store : Store)
    (req : Request) : Passed :=
  let token := extractToken req
  if !truthy token then
    ⟨req, [some ⟨"Not authorized to access this route", 401⟩]⟩
  else
    verifyToken jwtVerify store req (token.getD "")

/-- `exports.authorize(...roles)` applied to a request whose `req.user`
is the document `user`. -/
def authorize (roles : List String) (user : UserDoc) : List (Option ErrorResponse) :=
  if !roles.contains user.role then
    [some ⟨"User role " ++ user.role ++ " is not authorized to access this route", 403⟩]
  else
    [none]

/-! ## models/User.js -/

/-- The library functions and configuration the model and the controllers
call: `jwt.sign` (of the id, the secret and `expiresIn`), the hex SHA-256
digest, `bcrypt.hash(data, salt)`, and `process.env`. -/
structure Lib where
  jwtSign : String → String → String → String
  sha256 : String → String
  bcryptHash : String → String → String
  JWT_SECRET : String
  JWT_EXPIRE : String
  JWT_COOKIE_EXPIRE : Nat
  NODE_ENV : String

/-- What the pre-save hook does, in order: a call of `next()` (with the
document as it is at that moment), `bcrypt.genSalt(rounds)`,
`bcrypt.hash(data, salt)`, and the rejection of the hook's promise. -/
inductive HookEvent where
  | next (doc : UserDoc)
  | genSalt (rounds : Nat)
  | hash (data : Option String) (salt : String)
  | rejected (err : Thrown)
  deriving DecidableEq, Repr

/-- The hook `UserSchema.pre('save', ...)`: the document after the body
has run and the calls it made.  `salt` is what `bcrypt.genSalt(10)`
resolves to; `bcrypt.hash(undefined, salt)` rejects. -/
def preSave (lib : Lib) (salt : String) (doc : UserDoc) : UserDoc × List HookEvent :=
  -- if(!this.isModified('password')) { next(); }
  let ev0 := if !doc.passwordModified then [HookEvent.next doc] else []
  -- const salt = await bcrypt.genSalt(10);
  let ev1 := ev0 ++ [HookEvent.genSalt 10]
  -- this.password = await bcrypt.hash(this.password, salt); next();
  match doc.password with
  | none => (doc, ev1 ++ [HookEvent.hash none salt, HookEvent.rejected Thrown.illegalArguments])
  | some pw =>
    let doc1 := { doc with password := some (lib.bcryptHash pw salt), passwordModified := true }
    (doc1, ev1 ++ [HookEvent.hash (some pw) salt, HookEvent.next doc1])

/-- `UserSchema.methods.getSignedJwtToken`. -/
def getSignedJwtToken (lib : Lib) (doc : UserDoc) : String :=
  lib.jwtSign doc._id lib.JWT_SECRET lib.JWT_EXPIRE

/-- `UserSchema.methods.getResetPasswordToken`: `resetToken` is the hex
of `crypto.randomBytes(20)`, `now` is `Date.now()`. -/
def getResetPasswordToken (lib : Lib) (resetToken : String) (now : Nat) (doc : UserDoc) :
    String × UserDoc :=
  (resetToken,
    { doc with
      resetPasswordToken := some (lib.sha256 resetToken)
      resetPasswordExpire := some (now + 10 * 60 * 1000) })

/-! ## Saving a document -/

/-- The failed validators of the paths a query always loads: `name` is
`required`; `email` is `required` and has the `match` pattern; `role` has
the `enum` of `user` and `publisher`. -/
def loadedErrors (doc : UserDoc) : List (String × String) :=
  (if doc.name = "" then [("name", "required")] else []) ++
  (if doc.email = "" then [("email", "required")]
    else if emailPattern.test doc.email then [] else [("email", "regexp")]) ++
  (if ["user", "publisher"].contains doc.role then [] else [("role", "enum")])

/-- The failed validators of `password` (`required`, `minlength: 6`); the
path is validated when it is loaded or modified. -/
def passwordErrors (doc : UserDoc) : List (String × String) :=
  if doc.passwordModified || doc.password.isSome then
    match doc.password with
    | none => [("password", "required")]
    | some pw =>
      if pw = "" then [("password", "required")]
      else if jsLength pw < 6 then [("password", "minlength")]
      else []
  else []

/-- The validation that `save` runs first: the validators of the loaded
and of the modified paths; the reset fields and `createdAt` have none.
`none` when every validator passes. -/
def validate (doc : UserDoc) : Option Thrown :=
  match loadedErrors doc ++ passwordErrors doc with
  | [] => none
  | e :: es => some (Thrown.validationError (e :: es))

/-- The first call of `next()` or rejection of a hook run: the middleware
runner honours the first and ignores what follows. -/
def firstSignal : List HookEvent → Option HookEvent
  | [] => none
  | HookEvent.next d :: _ => some (HookEvent.next d)
  | HookEvent.rejected e :: _ => some (HookEvent.rejected e)
  | _ :: es => firstSignal es

/-- The record after the write of a saved document: the reset fields, and
the password when it is modified; the other paths are never assigned by
the controllers. -/
def persist (doc : UserDoc) (u : User) : User :=
  { u with
    password := if doc.passwordModified then doc.password.getD u.password else u.password
    resetPasswordToken := doc.resetPasswordToken
    resetPasswordExpire := doc.resetPasswordExpire }

/-- The collection after `updateOne` on `_id`: the first record with the
id is replaced. -/
def updateOne (id : String) (f : User → User) : Store → Store
  | [] => []
  | u :: us => if u._id == id then f u :: us else u :: updateOne id f us

/-- The method `user.save(opts)` with `validateBeforeSave` of `opts`:
validation, then the pre-save hook, then the write of the document as it
was when the hook first called `next()`.  Gives the collection and the
document in memory afterwards, or the error `save` rejects with. -/
def save (lib : Lib) (salt : String) (validateBeforeSave : Bool) (store : Store)
    (doc : UserDoc) : Except Thrown (Store × UserDoc) :=
  match (if validateBeforeSave then validate doc else none) with
  | some e => Except.error e
  | none =>
    let run := preSave lib salt doc
    match firstSignal run.2 with
    | some (HookEvent.next snapshot) =>
      Except.ok (updateOne doc._id (persist snapshot) store,
        { run.1 with passwordModified := decide (run.1.password ≠ snapshot.password) })
    | some (HookEvent.rejected e) => Except.error e
    | _ => Except.error Thrown.illegalArguments

/-! ## controllers/auth.js -/

/-- The options and value of `res.cookie(name, value, options)`. -/
structure Cookie where
  name : String
  value : String
  expires : Nat
  httpOnly : Bool
  secure : Bool
  deriving DecidableEq, Repr

/-- The JSON bodies the handlers send, all with `success: true`: with
`token`, with a string as `data`, and with the user document as `data`. -/
inductive Body where
  | token (token : String)
  | message (data : String)
  | user (data : UserDoc)
  deriving DecidableEq, Repr

/-- The observable calls of a handler: `User.create(...)` started, a
completed `user.save()` (with the collection after it), `sendEmail`
(and whether it delivered), `res.status(s).cookie(...).json(body)`, and
`next(err)`. -/
inductive Event where
  | create (name email password role : Option String)
  | save (store : Store)
  | sendEmail (email subject message : String) (delivered : Bool)
  | json (statusCode : Nat) (cookie : Option Cookie) (body : Body)
  | next (err : Thrown)
  deriving DecidableEq, Repr

/-- A handler run: the collection when the handler is done and its
calls in order. -/
structure Run where
  store : Store
  events : List Event
  deriving DecidableEq, Repr

/-- The value a controller binds to `user`: a document, or the pending
promise of a call that is not awaited. -/
inductive UserValue where
  | doc (d : UserDoc)
  | promise
  deriving DecidableEq, Repr

/-- The helper `sendTokenResponse(user, statusCode, res)` on a response
not yet sent: the calls on `res`, or the error thrown (a promise has no
method `getSignedJwtToken`).  `now` is `Date.now()`. -/
def sendTokenResponse (lib : Lib) (now : Nat) (user : UserValue) (statusCode : Nat) :
    Except Thrown (List Event) :=
  match user with
  | UserValue.promise => Except.error (Thrown.typeError "user.getSignedJwtToken is not a function")
  | UserValue.doc d =>
    let token := getSignedJwtToken lib d
    let options : Cookie :=
      ⟨"token", token, now + lib.JWT_COOKIE_EXPIRE * 24 * 60 * 60 * 1000, true,
        lib.NODE_ENV == "production"⟩
    Except.ok [Event.json statusCode (some options) (Body.token token)]

/-- Modelled from the spec: `middleware/async` is not among the sources;
an error thrown in a handler propagates to the error boundary, that is,
it is passed to `next`. -/
def asyncHandler (store : Store) (done : List Event) (r : Except Thrown (List Event)) : Run :=
  match r with
  | Except.ok evs => ⟨store, done ++ evs⟩
  | Except.error e => ⟨store, done ++ [Event.next e]⟩

/-- `exports.register` on `req.body`: `User.create` is called and its
promise, not awaited, is what `sendTokenResponse` receives. -/
def register (lib : Lib) (now : Nat) (store : Store)
    (name email password role : Option String) : Run :=
  let user := UserValue.promise
  asyncHandler store [Event.create name email password role]
    (sendTokenResponse lib now user 200)

/-- The query `User.findOne` of `resetPassword`: the first record whose
`resetPasswordToken` is the digest and whose `resetPasswordExpire` is
`$gt` now. -/
def findByResetToken (store : Store) (digest : String) (now : Nat) : Option User :=
  store.find? (fun u =>
    u.resetPasswordToken == some digest &&
    (match u.resetPasswordExpire with
     | some e => decide (now < e)
     | none => false))

/-- `exports.resetPassword`: `resettoken` is `req.params.resettoken`,
`password` is `req.body.password`, `now` is `Date.now()`. -/
def resetPassword (lib : Lib) (salt : String) (now : Nat) (store : Store)
    (resettoken : String) (password : Option String) : Run :=
  let resetPasswordToken := lib.sha256 resettoken
  match findByResetToken store resetPasswordToken now with
  | none => ⟨store, [Event.next (Thrown.errorResponse ⟨"Invalid token", 400⟩)]⟩
  | some u =>
    let user : UserDoc :=
      { load false u with
        password := password
        passwordModified := true
        resetPasswordToken := none
        resetPasswordExpire := none }
    match save lib salt true store user with
    | Except.error e => asyncHandler store [] (Except.error e)
    | Except.ok (store1, user1) =>
      asyncHandler store1 [Event.save store1] (sendTokenResponse lib now (UserValue.doc user1) 200)

/-- `exports.forgotPassword`: `email` is `req.body.email`, `protocol` is
`req.protocol`, `hose` is `req.get('hose')`, `resetToken` the random
token, `delivered` whether `sendEmail` resolves. -/
def forgotPassword (lib : Lib) (resetToken salt1 salt2 : String) (now : Nat)
    (delivered : Bool) (protocol : String) (hose : Option String) (store : Store)
    (email : String) : Run :=
  match (store.find? (fun u => u.email == email)).map (load false) with
  | none => ⟨store, [Event.next (Thrown.errorResponse ⟨"There is no user with that email", 404⟩)]⟩
  | some user0 =>
    let issued := getResetPasswordToken lib resetToken now user0
    match save lib salt1 false store issued.2 with
    | Except.error e => asyncHandler store [] (Except.error e)
    | Except.ok (store1, user) =>
      let resetUrl :=
        protocol ++ "://" ++ hose.getD "undefined" ++ "/api/v1/auth/resetpassword/" ++ issued.1
      let message := "This email is for resseting email: " ++ resetUrl ++ " "
      let mail := Event.sendEmail user.email "Password reset token" message delivered
      if delivered then
        -- the response of the try block, then the one after it on the sent response
        asyncHandler store1
          [Event.save store1, mail,
            Event.json 200 none (Body.message "Email sent"),
            Event.json 200 none (Body.user user)]
          (Except.error Thrown.headersSent)
      else
        let user2 := { user with resetPasswordToken := none, resetPasswordExpire := none }
        match save lib salt2 false store1 user2 with
        | Except.error e => asyncHandler store1 [Event.save store1, mail] (Except.error e)
        | Except.ok (store2, _) =>
          ⟨store2, [Event.save store1, mail, Event.save store2,
            Event.next (Thrown.errorResponse ⟨"Email could not be sent", 500⟩)]⟩

/-! ## Records before and after, for stating what a handler wrote -/

/-- The record with the reset fields set to a digest and an expiry. -/
def setReset (digest : String) (expire : Nat) (u : User) : User :=
  { u with resetPasswordToken := some digest, resetPasswordExpire := some expire }

/-- The record with both reset fields absent. -/
def clearReset (u : User) : User :=
  { u with resetPasswordToken := none, resetPasswordExpire := none }

/-- The record with a new password hash and both reset fields absent. -/
def setPassword (hash : String) (u : User) : User :=
  { u with password := hash, resetPasswordToken := none, resetPasswordExpire := none }

/-- The collection with `f` applied to the records with the given id. -/
def mapId (id : String) (f : User → User) (store : Store) : Store :=
  store.map (fun r => if r._id = id then f r else r)

/-- The schema's constraint on `_id`: no two records share one. -/
abbrev uniqueIds (store : Store) : Prop :=
  store.Pairwise (fun a b => a._id ≠ b._id)

/-! ## Sample inputs

Library functions that tag their arguments, and two records, for
evaluating the handlers on concrete requests. -/

/-- Library functions that wrap their arguments in a tag. -/
def sampleLib : Lib where
  jwtSign := fun id secret expiresIn => "jwt(" ++ id ++ "," ++ secret ++ "," ++ expiresIn ++ ")"
  sha256 := fun s => "sha256(" ++ s ++ ")"
  bcryptHash := fun data salt => "bcrypt(" ++ data ++ "," ++ salt ++ ")"
  JWT_SECRET := "secret"
  JWT_EXPIRE := "30d"
  JWT_COOKIE_EXPIRE := 30
  NODE_ENV := "development"

/-- A verifier that accepts the token `good` for the subject `u1` and
throws on every other token. -/
def sampleVerify (token : String) : Option JwtPayload :=
  if token = "good" then some ⟨"u1"⟩ else none

/-- A registered user with no reset token. -/
def sampleUser : User :=
  ⟨"u1", "A", "a@x.com", "user", "bcrypt(secret1,s0)", none, none, 0⟩

/-- A second user. -/
def sampleUser2 : User :=
  ⟨"u2", "B", "b@x.com", "publisher", "bcrypt(secret2,s0)", none, none, 0⟩

/-- A record with the role `admin` that the ownership checks of the
controllers refer to; the schema's `enum` does not list it. -/
def sampleAdmin : User :=
  ⟨"u3", "C", "c@x.com", "admin", "bcrypt(secret3,s0)", none, none, 0⟩

/-! ## The role gate and the session middleware -/

/-- C1: the middleware returned by `authorize(...roles)` calls `next`
exactly once, with no error if and only if the role of `req.user` is in
`roles`, and otherwise with an ErrorResponse of status 403; with the
allow-list `admin`, role `user` is rejected with 403 and role `admin`
passes. -/
theorem authorize_passes_iff_role_allowed (roles : List String) (user : UserDoc) :
    (authorize roles user = [none] ↔ user.role ∈ roles) ∧
    (authorize roles user =
      if user.role ∈ roles then [none]
      else [some ⟨"User role " ++ user.role ++ " is not authorized to access this route", 403⟩]) ∧
    authorize ["admin"] { user with role := "user" } =
      [some ⟨"User role user is not authorized to access this route", 403⟩] ∧
    authorize ["admin"] { user with role := "admin" } = [none] := by
  refine ⟨?_, ?_, by simp [authorize], by simp [authorize]⟩
  · by_cases h : user.role ∈ roles <;> simp [authorize, h]
  · by_cases h : user.role ∈ roles <;> simp [authorize, h]

/-- C2: when no token is found (no Authorization header and no `token`
cookie) or the found token fails verification, `protect` leaves the
request as it is (no identity attached) and calls `next` once, with the
same error in both cases: 401, Not authorized to access this route. -/
theorem protect_rejects_without_valid_token (jwtVerify : String → Option JwtPayload)
    (store : Store) (req : Request)
    (h : (req.authorization = none ∧ req.cookieToken = none) ∨
      (∃ t, extractToken req = some t ∧ jwtVerify t = none)) :
    protect jwtVerify store req =
      ⟨req, [some ⟨"Not authorized to access this route", 401⟩]⟩ := by
  rcases h with ⟨ha, hc⟩ | ⟨t, ht, hv⟩
  · simp [protect, extractToken, ha, hc, truthy]
  · by_cases htt : truthy (some t) = true
    · simp [protect, ht, htt, verifyToken, hv]
    · simp [protect, ht, htt]

/-- Witness of C2: a garbage token in the header, and no token at all. -/
theorem protect_rejects_without_valid_token_witness :
    protect sampleVerify [sampleUser] ⟨some "Bearer garbage", none, none⟩ =
      ⟨⟨some "Bearer garbage", none, none⟩,
        [some ⟨"Not authorized to access this route", 401⟩]⟩ ∧
    protect sampleVerify [sampleUser] ⟨none, none, none⟩ =
      ⟨⟨none, none, none⟩, [some ⟨"Not authorized to access this route", 401⟩]⟩ :=
  ⟨protect_rejects_without_valid_token sampleVerify [sampleUser] _
      (Or.inr ⟨"garbage", by decide, by decide⟩),
    protect_rejects_without_valid_token sampleVerify [sampleUser] _
      (Or.inl ⟨rfl, rfl⟩)⟩

/-- C3: a verified token whose subject has no record in the store:
`protect` sets `req.user` to `null` and calls `next()` with no error. -/
theorem protect_passes_null_identity :
    protect sampleVerify [sampleUser2] ⟨some "Bearer good", none, none⟩ =
      ⟨⟨some "Bearer good", none, some none⟩, [none]⟩ := by
  decide

/-- C4: on a document whose password is not modified the pre-save hook
calls `next()` and goes on to the hasher.  With the password loaded it
calls `bcrypt.genSalt` and `bcrypt.hash` on the stored password, assigns
the result to the password field and calls `next()` again; with the
password not selected it calls `bcrypt.hash` on `undefined`, which rejects. -/
theorem preSave_hashes_unmodified_password (lib : Lib) (salt : String) (u : User) :
    (load true u).passwordModified = false ∧
    preSave lib salt (load true u) =
      ({ load true u with
          password := some (lib.bcryptHash u.password salt)
          passwordModified := true },
        [HookEvent.next (load true u), HookEvent.genSalt 10,
          HookEvent.hash (some u.password) salt,
          HookEvent.next
            { load true u with
              password := some (lib.bcryptHash u.password salt)
              passwordModified := true }]) ∧
    (load false u).passwordModified = false ∧
    preSave lib salt (load false u) =
      (load false u,
        [HookEvent.next (load false u), HookEvent.genSalt 10,
          HookEvent.hash none salt, HookEvent.rejected Thrown.illegalArguments]) := by
  simp [preSave, load]

/-- C5: on every body `register` sends no response: `User.create` is
started, the handler throws a TypeError on the pending promise, and the
error goes to `next`. -/
theorem register_sends_no_token (lib : Lib) (now : Nat) (store : Store)
    (name email password role : Option String) :
    register lib now store name email password role =
      ⟨store, [Event.create name email password role,
        Event.next (Thrown.typeError "user.getSignedJwtToken is not a function")]⟩ := by
  rfl

/-! ## Token extraction -/

/-- A string without the separator is one piece. -/
theorem splitChars_of_not_mem (sep : Char) (l : List Char) (h : sep ∉ l) :
    splitChars sep l = [l] := by
  induction l with
  | nil => rfl
  | cons c cs ih =>
    have hc : c ≠ sep := fun e => h (by simp [e])
    have hcs : sep ∉ cs := fun e => h (by simp [e])
    simp [splitChars, hc, ih hcs]

/-- The characters of a Bearer header. -/
theorem bearer_data (tok : String) :
    ("Bearer " ++ tok).data = 'B' :: 'e' :: 'a' :: 'r' :: 'e' :: 'r' :: Char.ofNat 32 :: tok.data := by
  rw [String.data_append]; rfl

/-- A header `Bearer ` followed by a token without a space: the token is
the header's, whatever the cookie. -/
theorem extractToken_bearer (req : Request) (tok : String)
    (ha : req.authorization = some ("Bearer " ++ tok)) (hs : Char.ofNat 32 ∉ tok.data) :
    extractToken req = some tok := by
  have hne : ("Bearer " ++ tok) ≠ "" := by
    intro e
    have := congrArg String.data e
    rw [bearer_data] at this
    simp at this
  have hsw : startsWith ("Bearer " ++ tok) "Bearer" = true := by
    unfold startsWith
    rw [bearer_data]
    show startsWithChars _ ['B', 'e', 'a', 'r', 'e', 'r'] = true
    simp [startsWithChars]
  have hsp : split ("Bearer " ++ tok) = ["Bearer", tok] := by
    unfold split
    rw [bearer_data]
    simp [splitChars, splitChars_of_not_mem _ _ hs]
  simp [extractToken, ha, truthy, hne, hsw, hsp]

/-- No Bearer header (none, or one that does not start with Bearer) and
a non-empty cookie: the token is the cookie. -/
theorem extractToken_cookie (req : Request) (tok : String)
    (ha : req.authorization = none ∨
      ∃ a, req.authorization = some a ∧ startsWith a "Bearer" = false)
    (hc : req.cookieToken = some tok) (hne : tok ≠ "") :
    extractToken req = some tok := by
  rcases ha with ha | ⟨a, ha, hs⟩
  · simp [extractToken, ha, hc, truthy, hne]
  · simp [extractToken, ha, hc, truthy, hne, hs]

/-- A header that starts with `Bearer`: the token is the second piece of
the header split at spaces, whatever the cookie holds, and `protect`
verifies that piece when it is non-empty and rejects with 401 otherwise. -/
theorem protect_bearer_header (jwtVerify : String → Option JwtPayload) (store : Store)
    (a : String) (c : Option String) (usr : Option (Option UserDoc))
    (hs : startsWith a "Bearer" = true) :
    extractToken ⟨some a, c, usr⟩ = (split a)[1]? ∧
    protect jwtVerify store ⟨some a, c, usr⟩ =
      if truthy ((split a)[1]?) then
        verifyToken jwtVerify store ⟨some a, c, usr⟩ (((split a)[1]?).getD "")
      else
        ⟨⟨some a, c, usr⟩, [some ⟨"Not authorized to access this route", 401⟩]⟩ := by
  have hne : a ≠ "" := by
    intro e
    rw [e] at hs
    exact absurd hs (by decide)
  have ht : extractToken ⟨some a, c, usr⟩ = (split a)[1]? := by
    simp [extractToken, truthy, hne, hs]
  refine ⟨ht, ?_⟩
  by_cases hp : truthy ((split a)[1]?) = true
  · simp [protect, ht, hp]
  · simp [protect, ht, hp]

/-- C6, as the code has it: the token is the header's when the header is
`Bearer ` followed by a non-empty token without a space (whatever the
cookie holds), and the cookie's when the header is absent or does not
start with `Bearer` and the cookie is non-empty; in both cases `protect`
goes on to verification with that token.  For every header that starts
with `Bearer` the cookie is not consulted: the token is the second piece
of the header, and `protect` rejects with 401 when that piece is missing
or empty. -/
theorem protect_token_source (jwtVerify : String → Option JwtPayload) (store : Store)
    (req : Request) (tok : String) (hne : tok ≠ "")
    (h : (req.authorization = some ("Bearer " ++ tok) ∧ Char.ofNat 32 ∉ tok.data) ∨
      ((req.authorization = none ∨
          ∃ a, req.authorization = some a ∧ startsWith a "Bearer" = false) ∧
        req.cookieToken = some tok)) :
    (extractToken req = some tok ∧
      protect jwtVerify store req = verifyToken jwtVerify store req tok) ∧
    ∀ (a : String) (c : Option String) (usr : Option (Option UserDoc)),
      startsWith a "Bearer" = true →
        extractToken ⟨some a, c, usr⟩ = (split a)[1]? ∧
        protect jwtVerify store ⟨some a, c, usr⟩ =
          if truthy ((split a)[1]?) then
            verifyToken jwtVerify store ⟨some a, c, usr⟩ (((split a)[1]?).getD "")
          else
            ⟨⟨some a, c, usr⟩, [some ⟨"Not authorized to access this route", 401⟩]⟩ := by
  have ht : extractToken req = some tok := by
    rcases h with ⟨ha, hs⟩ | ⟨ha, hc⟩
    · exact extractToken_bearer req tok ha hs
    · exact extractToken_cookie req tok ha hc hne
  refine ⟨⟨ht, ?_⟩, fun a c usr hs => protect_bearer_header jwtVerify store a c usr hs⟩
  simp [protect, ht, truthy, hne]

/-- Witness of C6: header and cookie both hold a token; a cookie next to
a Basic header; and the header `Bearer ` with an empty token in front of
a cookie that holds a token. -/
theorem protect_token_source_witness :
    (extractToken ⟨some ("Bearer " ++ "good"), some "other", none⟩ = some "good" ∧
      protect sampleVerify [sampleUser] ⟨some ("Bearer " ++ "good"), some "other", none⟩ =
        verifyToken sampleVerify [sampleUser]
          ⟨some ("Bearer " ++ "good"), some "other", none⟩ "good") ∧
    (extractToken ⟨some "Basic abc", some "good", none⟩ = some "good" ∧
      protect sampleVerify [sampleUser] ⟨some "Basic abc", some "good", none⟩ =
        verifyToken sampleVerify [sampleUser] ⟨some "Basic abc", some "good", none⟩ "good") ∧
    (extractToken ⟨some "Bearer ", some "good", none⟩ = (split "Bearer ")[1]? ∧
      protect sampleVerify [sampleUser] ⟨some "Bearer ", some "good", none⟩ =
        if truthy ((split "Bearer ")[1]?) then
          verifyToken sampleVerify [sampleUser] ⟨some "Bearer ", some "good", none⟩
            (((split "Bearer ")[1]?).getD "")
        else
          ⟨⟨some "Bearer ", some "good", none⟩,
            [some ⟨"Not authorized to access this route", 401⟩]⟩) :=
  ⟨(protect_token_source sampleVerify [sampleUser] _ "good" (by decide)
      (Or.inl ⟨rfl, by decide⟩)).1,
    (protect_token_source sampleVerify [sampleUser] _ "good" (by decide)
      (Or.inr ⟨Or.inr ⟨"Basic abc", rfl, by decide⟩, rfl⟩)).1,
    (protect_token_source sampleVerify [sampleUser]
      ⟨some "Basic abc", some "good", none⟩ "good" (by decide)
      (Or.inr ⟨Or.inr ⟨"Basic abc", rfl, by decide⟩, rfl⟩)).2
      "Bearer " (some "good") none (by decide)⟩

/-- C6 fails as stated: the header `Bearer` carries no token and the
cookie holds one that verifies, yet `protect` finds no token and rejects
the request with 401 without verifying anything. -/
theorem protect_ignores_cookie_behind_bearer :
    sampleVerify "good" = some ⟨"u1"⟩ ∧
    extractToken ⟨some "Bearer", some "good", none⟩ = none ∧
    protect sampleVerify [sampleUser] ⟨some "Bearer", some "good", none⟩ =
      ⟨⟨some "Bearer", some "good", none⟩,
        [some ⟨"Not authorized to access this route", 401⟩]⟩ := by
  decide

/-! ## Saving and looking up -/

/-- A save without validation of a document whose password is neither
selected nor modified: the hook's first signal is its `next()`, the write
goes through and the document is as before. -/
theorem save_unselected (lib : Lib) (salt : String) (store : Store) (doc : UserDoc)
    (hm : doc.passwordModified = false) (hp : doc.password = none) :
    save lib salt false store doc =
      Except.ok (updateOne doc._id (persist doc) store, doc) := by
  cases doc
  simp_all [save, preSave, firstSignal]

/-- Validation passes exactly when no validator of a loaded path and no
validator of the password fails. -/
theorem validate_eq_none (doc : UserDoc) :
    validate doc = none ↔ loadedErrors doc = [] ∧ passwordErrors doc = [] := by
  unfold validate
  cases h : loadedErrors doc ++ passwordErrors doc with
  | nil => simpa using List.append_eq_nil.mp h
  | cons e es =>
    simp only [reduceCtorEq, false_iff]
    intro hh
    rw [hh.1, hh.2] at h
    simp at h

/-- An assigned password passes its validators exactly when it is a
string of at least 6 code units. -/
theorem passwordErrors_modified (doc : UserDoc) (hm : doc.passwordModified = true) :
    passwordErrors doc = [] ↔ ∃ pw, doc.password = some pw ∧ 6 ≤ jsLength pw := by
  unfold passwordErrors
  cases hp : doc.password with
  | none => simp [hm]
  | some pw =>
    by_cases he : pw = ""
    · subst he
      simp [hm]
      decide
    · by_cases hl : jsLength pw < 6
      · simp [hm, he, hl]
      · simp [hm, he, hl]
        omega

/-- A validated save of a document whose password was assigned and that
passes validation: the write carries the hashed password. -/
theorem save_new_password (lib : Lib) (salt : String) (store : Store) (doc : UserDoc)
    (pw : String) (hm : doc.passwordModified = true) (hp : doc.password = some pw)
    (hv : validate doc = none) :
    save lib salt true store doc =
      Except.ok
        (updateOne doc._id
          (persist { doc with password := some (lib.bcryptHash pw salt) }) store,
          { doc with password := some (lib.bcryptHash pw salt), passwordModified := false }) := by
  unfold save
  simp only [if_true, hv]
  cases doc
  simp_all [preSave, firstSignal]

/-- A validated save of a document that fails validation is rejected
with the validation error. -/
theorem save_invalid (lib : Lib) (salt : String) (store : Store) (doc : UserDoc)
    (e : Thrown) (hv : validate doc = some e) :
    save lib salt true store doc = Except.error e := by
  unfold save
  simp only [if_true, hv]

/-- Two updates of the record with one id are one update, when the first
keeps the id. -/
theorem updateOne_updateOne (id : String) (f g : User → User)
    (hf : ∀ u, (f u)._id = u._id) (store : Store) :
    updateOne id g (updateOne id f store) = updateOne id (fun u => g (f u)) store := by
  induction store with
  | nil => rfl
  | cons u us ih =>
    by_cases h : u._id = id
    · simp [updateOne, h, hf]
    · simp [updateOne, h, ih]

/-- With unique ids, `updateOne` changes the records with the id and no
other. -/
theorem updateOne_eq_mapId (id : String) (f : User → User) (store : Store)
    (hid : uniqueIds store) :
    updateOne id f store = mapId id f store := by
  unfold uniqueIds at hid
  unfold mapId
  induction store with
  | nil => rfl
  | cons u us ih =>
    rw [List.pairwise_cons] at hid
    by_cases h : u._id = id
    · have hrest : us.map (fun r => if r._id = id then f r else r) = us := by
        conv_rhs => rw [← List.map_id us]
        apply List.map_congr_left
        intro r hr
        have := hid.1 r hr
        simp [h ▸ this.symm]
      simp [updateOne, h, hrest]
    · simp [updateOne, h, ih hid.2]

/-- The record a query found is in the collection. -/
theorem mem_mapId (id : String) (f : User → User) (store : Store) (u : User)
    (hu : u ∈ store) (h : u._id = id) : f u ∈ mapId id f store := by
  unfold mapId
  exact List.mem_map.mpr ⟨u, hu, by simp [h]⟩

/-! ## forgotPassword -/

/-- The reset query never finds a record whose reset fields were cleared. -/
theorem findByResetToken_not_cleared (id : String) (store : Store) (d : String) (t : Nat)
    (v : User) (h : findByResetToken (mapId id clearReset store) d t = some v) :
    v._id ≠ id := by
  intro hvid
  have hmem : v ∈ mapId id clearReset store := List.mem_of_find?_eq_some h
  have hvd : v.resetPasswordToken = some d := by
    have := List.find?_some h
    simp only [Bool.and_eq_true, beq_iff_eq] at this
    exact this.1
  unfold mapId at hmem
  obtain ⟨r, _, hr⟩ := List.mem_map.mp hmem
  by_cases hrid : r._id = id
  · simp only [hrid, if_true] at hr
    rw [← hr] at hvd
    simp [clearReset] at hvd
  · simp only [hrid, if_false] at hr
    exact hrid (hr ▸ hvid)

/-- C9: when the user exists and the email is not delivered,
`forgotPassword` saves the user with the new reset fields, then saves it
with both reset fields absent and every other field as before, and only
then passes one error to `next`, of status 500; no response is sent, and
no reset token finds the user's record afterwards. -/
theorem forgotPassword_rolls_back (lib : Lib) (resetToken salt1 salt2 : String) (now : Nat)
    (protocol : String) (hose : Option String) (store : Store) (email : String) (u : User)
    (hid : uniqueIds store)
    (hu : store.find? (fun r => r.email == email) = some u) :
    forgotPassword lib resetToken salt1 salt2 now false protocol hose store email =
      ⟨mapId u._id clearReset store,
        [Event.save (mapId u._id (setReset (lib.sha256 resetToken) (now + 600000)) store),
          Event.sendEmail u.email "Password reset token"
            ("This email is for resseting email: " ++
              (protocol ++ "://" ++ hose.getD "undefined" ++ "/api/v1/auth/resetpassword/" ++
                resetToken) ++ " ") false,
          Event.save (mapId u._id clearReset store),
          Event.next (Thrown.errorResponse ⟨"Email could not be sent", 500⟩)]⟩ ∧
    clearReset u ∈ mapId u._id clearReset store ∧
    ∀ (d : String) (t : Nat) (v : User),
      findByResetToken (mapId u._id clearReset store) d t = some v → v._id ≠ u._id := by
  have hmem : u ∈ store := List.mem_of_find?_eq_some hu
  refine ⟨?_, mem_mapId _ _ _ _ hmem rfl, fun d t v hv hvid =>
    findByResetToken_not_cleared _ _ _ _ _ hv hvid⟩
  have h1 : ∀ r : User, persist (getResetPasswordToken lib resetToken now (load false u)).2 r =
      setReset (lib.sha256 resetToken) (now + 600000) r := by
    intro r; cases r; simp [persist, getResetPasswordToken, load, setReset]
  have h2 : ∀ r : User,
      persist { (getResetPasswordToken lib resetToken now (load false u)).2 with
        resetPasswordToken := none, resetPasswordExpire := none }
        (setReset (lib.sha256 resetToken) (now + 600000) r) = clearReset r := by
    intro r; cases r; simp [persist, getResetPasswordToken, load, setReset, clearReset]
  unfold forgotPassword
  simp only [hu, Option.map_some']
  rw [save_unselected lib salt1 store _ rfl rfl]
  simp only [Bool.false_eq_true, if_false]
  rw [save_unselected lib salt2 _ _ rfl rfl]
  simp only [funext h1]
  rw [updateOne_updateOne _ _ _ (fun r => by cases r; rfl)]
  simp only [h2]
  rw [← updateOne_eq_mapId _ _ _ hid, ← updateOne_eq_mapId _ _ _ hid]
  rfl

/-- Witness of C9: the sample user asks for a reset and the mail fails. -/
theorem forgotPassword_rolls_back_witness :
    forgotPassword sampleLib "tok" "s1" "s2" 1000 false "http" none
        [sampleUser2, sampleUser] "a@x.com" =
      ⟨mapId sampleUser._id clearReset [sampleUser2, sampleUser],
        [Event.save (mapId sampleUser._id (setReset (sampleLib.sha256 "tok") (1000 + 600000))
            [sampleUser2, sampleUser]),
          Event.sendEmail sampleUser.email "Password reset token"
            ("This email is for resseting email: " ++
              ("http" ++ "://" ++ (none : Option String).getD "undefined" ++
                "/api/v1/auth/resetpassword/" ++ "tok") ++ " ") false,
          Event.save (mapId sampleUser._id clearReset [sampleUser2, sampleUser]),
          Event.next (Thrown.errorResponse ⟨"Email could not be sent", 500⟩)]⟩ ∧
    clearReset sampleUser ∈ mapId sampleUser._id clearReset [sampleUser2, sampleUser] ∧
    ∀ (d : String) (t : Nat) (v : User),
      findByResetToken (mapId sampleUser._id clearReset [sampleUser2, sampleUser]) d t =
        some v → v._id ≠ sampleUser._id :=
  forgotPassword_rolls_back sampleLib "tok" "s1" "s2" 1000 "http" none
    [sampleUser2, sampleUser] "a@x.com" sampleUser (by decide) (by decide)

/-- C10: when the user exists and the email is delivered,
`forgotPassword` calls `res.json` twice, the second time with the user
document that carries the stored digest of the reset token; that call is
on a response already sent and throws, and the error goes to `next`. -/
theorem forgotPassword_responds_twice (lib : Lib) (resetToken salt1 salt2 : String)
    (now : Nat) (protocol : String) (hose : Option String) (store : Store) (email : String)
    (u : User) (hu : store.find? (fun r => r.email == email) = some u) :
    (forgotPassword lib resetToken salt1 salt2 now true protocol hose store email).events =
      [Event.save (updateOne u._id (setReset (lib.sha256 resetToken) (now + 600000)) store),
        Event.sendEmail u.email "Password reset token"
          ("This email is for resseting email: " ++
            (protocol ++ "://" ++ hose.getD "undefined" ++ "/api/v1/auth/resetpassword/" ++
              resetToken) ++ " ") true,
        Event.json 200 none (Body.message "Email sent"),
        Event.json 200 none
          (Body.user
            { load false u with
              resetPasswordToken := some (lib.sha256 resetToken)
              resetPasswordExpire := some (now + 600000) }),
        Event.next Thrown.headersSent] := by
  have h1 : ∀ r : User, persist (getResetPasswordToken lib resetToken now (load false u)).2 r =
      setReset (lib.sha256 resetToken) (now + 600000) r := by
    intro r; cases r; simp [persist, getResetPasswordToken, load, setReset]
  unfold forgotPassword
  simp only [hu, Option.map_some']
  rw [save_unselected lib salt1 store _ rfl rfl]
  simp only [if_true, funext h1]
  rfl

/-- Witness of C10: the sample user asks for a reset and the mail is
delivered. -/
theorem forgotPassword_responds_twice_witness :
    (forgotPassword sampleLib "tok" "s1" "s2" 1000 true "http" none
        [sampleUser] "a@x.com").events =
      [Event.save (updateOne sampleUser._id (setReset (sampleLib.sha256 "tok") (1000 + 600000))
          [sampleUser]),
        Event.sendEmail sampleUser.email "Password reset token"
          ("This email is for resseting email: " ++
            ("http" ++ "://" ++ (none : Option String).getD "undefined" ++
              "/api/v1/auth/resetpassword/" ++ "tok") ++ " ") true,
        Event.json 200 none (Body.message "Email sent"),
        Event.json 200 none
          (Body.user
            { load false sampleUser with
              resetPasswordToken := some (sampleLib.sha256 "tok")
              resetPasswordExpire := some (1000 + 600000) }),
        Event.next Thrown.headersSent] :=
  forgotPassword_responds_twice sampleLib "tok" "s1" "s2" 1000 "http" none
    [sampleUser] "a@x.com" sampleUser (by decide)

/-! ## resetPassword -/

/-- No record holds the digest: the query finds nothing. -/
theorem findByResetToken_none (store : Store) (d : String) (t : Nat)
    (h : ∀ v ∈ store, v.resetPasswordToken ≠ some d) :
    findByResetToken store d t = none := by
  unfold findByResetToken
  rw [List.find?_eq_none]
  intro v hv
  simp [h v hv]

/-- After the digest and expiry are saved on `u`, and with no other
record holding the digest, the query finds `u` exactly while the expiry
is in the future. -/
theorem findByResetToken_issued (store : Store) (u : User) (d : String) (e t : Nat)
    (hid : uniqueIds store) (hu : u ∈ store)
    (hdig : ∀ v ∈ store, v._id ≠ u._id → v.resetPasswordToken ≠ some d) :
    findByResetToken (mapId u._id (setReset d e) store) d t =
      if t < e then some (setReset d e u) else none := by
  induction store with
  | nil => simp at hu
  | cons r rs ih =>
    rw [uniqueIds, List.pairwise_cons] at hid
    by_cases hr : r._id = u._id
    · have hru : u = r := by
        rcases List.mem_cons.mp hu with h | h
        · exact h
        · exact absurd hr (hid.1 u h)
      subst hru
      have hrest : mapId u._id (setReset d e) rs = rs := by
        unfold mapId
        conv_rhs => rw [← List.map_id rs]
        apply List.map_congr_left
        intro v hv
        have := hid.1 v hv
        simp [this.symm]
      have hnone : findByResetToken rs d t = none :=
        findByResetToken_none rs d t
          (fun v hv => hdig v (List.mem_cons_of_mem _ hv) (hid.1 v hv).symm)
      by_cases ht : t < e
      · simp [mapId, findByResetToken, setReset, ht]
      · have hm : mapId u._id (setReset d e) (u :: rs) =
            setReset d e u :: mapId u._id (setReset d e) rs := by
          simp [mapId]
        rw [hm, hrest]
        unfold findByResetToken at hnone ⊢
        rw [List.find?_cons]
        simp [setReset, ht, hnone]
    · have hu2 : u ∈ rs := by
        rcases List.mem_cons.mp hu with h | h
        · exact absurd (h ▸ rfl) hr
        · exact h
      have hrd : r.resetPasswordToken ≠ some d := hdig r (List.mem_cons_self _ _) hr
      have := ih hid.2 hu2 (fun v hv => hdig v (List.mem_cons_of_mem _ hv))
      unfold findByResetToken at this ⊢
      simp only [mapId, List.map_cons, hr, if_false] at this ⊢
      rw [List.find?_cons]
      have hb : (r.resetPasswordToken == some d) = false := by simp [hrd]
      simp only [hb, Bool.false_and]
      exact this

/-- The query finds nothing: `resetPassword` passes Invalid token, 400,
to `next` and writes nothing. -/
theorem resetPassword_not_found (lib : Lib) (salt : String) (t : Nat) (store : Store)
    (p : String) (password : Option String)
    (h : findByResetToken store (lib.sha256 p) t = none) :
    resetPassword lib salt t store p password =
      ⟨store, [Event.next (Thrown.errorResponse ⟨"Invalid token", 400⟩)]⟩ := by
  simp [resetPassword, h]

/-- The document that `resetPassword` saves passes validation exactly
when the loaded paths of the record pass their validators and the new
password is a string of at least 6 code units. -/
theorem validate_reset_doc (u : User) (password : Option String) :
    validate
        { load false u with
          password := password
          passwordModified := true
          resetPasswordToken := none
          resetPasswordExpire := none } = none ↔
      loadedErrors (load false u) = [] ∧ ∃ pw, password = some pw ∧ 6 ≤ jsLength pw := by
  rw [validate_eq_none, passwordErrors_modified _ rfl]
  exact Iff.rfl

/-- The query finds `u`, the record passes the schema and the new
password has at least 6 code units: one save writes the hash of the new
password and clears both reset fields of `u`, then the token response is
sent with status 200. -/
theorem resetPassword_found (lib : Lib) (salt : String) (t : Nat) (store : Store)
    (p pw : String) (u : User)
    (h : findByResetToken store (lib.sha256 p) t = some u)
    (hs : loadedErrors (load false u) = []) (hpw : 6 ≤ jsLength pw) :
    resetPassword lib salt t store p (some pw) =
      ⟨updateOne u._id (setPassword (lib.bcryptHash pw salt)) store,
        [Event.save (updateOne u._id (setPassword (lib.bcryptHash pw salt)) store),
          Event.json 200
            (some ⟨"token", lib.jwtSign u._id lib.JWT_SECRET lib.JWT_EXPIRE,
              t + lib.JWT_COOKIE_EXPIRE * 24 * 60 * 60 * 1000, true,
              lib.NODE_ENV == "production"⟩)
            (Body.token (lib.jwtSign u._id lib.JWT_SECRET lib.JWT_EXPIRE))]⟩ := by
  have hp : ∀ r : User,
      persist
        { ({ load false u with
              password := some pw
              passwordModified := true
              resetPasswordToken := none
              resetPasswordExpire := none } : UserDoc) with
          password := some (lib.bcryptHash pw salt) } r =
        setPassword (lib.bcryptHash pw salt) r := by
    intro r; cases r; simp [persist, load, setPassword]
  have hv := (validate_reset_doc u (some pw)).mpr ⟨hs, pw, rfl, hpw⟩
  unfold resetPassword
  simp only [h]
  rw [save_new_password lib salt store _ pw rfl rfl hv]
  simp only [funext hp]
  rfl

/-- The query finds `u` and the save is rejected by validation:
`resetPassword` passes the validation error to `next` and writes
nothing. -/
theorem resetPassword_invalid (lib : Lib) (salt : String) (t : Nat) (store : Store)
    (p : String) (password : Option String) (u : User) (e : Thrown)
    (h : findByResetToken store (lib.sha256 p) t = some u)
    (hv : validate
        { load false u with
          password := password
          passwordModified := true
          resetPasswordToken := none
          resetPasswordExpire := none } = some e) :
    resetPassword lib salt t store p password = ⟨store, [Event.next e]⟩ := by
  unfold resetPassword
  simp only [h]
  rw [save_invalid lib salt store _ e hv]
  rfl

/-- C7, as the code has it: after `getResetPasswordToken` at time `T` with
plaintext `p` and a save, the record of `u` holds the SHA-256 digest of
`p` and the expiry `T + 600000`; with no other record holding that
digest, a record whose name, email and role pass the schema, and a new
password of at least 6 code units, `resetPassword` with `p` at time `t`
finds `u` and succeeds when `t < T + 600000`, and fails with Invalid
token, 400, when `T + 600000 ≤ t`. -/
theorem reset_token_window (lib : Lib) (p pw salt0 salt : String) (T t : Nat)
    (store : Store) (u : User)
    (hid : uniqueIds store) (hu : u ∈ store)
    (hdig : ∀ v ∈ store, v._id ≠ u._id → v.resetPasswordToken ≠ some (lib.sha256 p))
    (hs : loadedErrors (load false u) = []) (hpw : 6 ≤ jsLength pw) :
    (getResetPasswordToken lib p T (load false u)).1 = p ∧
    save lib salt0 false store (getResetPasswordToken lib p T (load false u)).2 =
      Except.ok (mapId u._id (setReset (lib.sha256 p) (T + 600000)) store,
        (getResetPasswordToken lib p T (load false u)).2) ∧
    setReset (lib.sha256 p) (T + 600000) u ∈
      mapId u._id (setReset (lib.sha256 p) (T + 600000)) store ∧
    resetPassword lib salt t (mapId u._id (setReset (lib.sha256 p) (T + 600000)) store) p
        (some pw) =
      if t < T + 600000 then
        ⟨mapId u._id (setPassword (lib.bcryptHash pw salt)) store,
          [Event.save (mapId u._id (setPassword (lib.bcryptHash pw salt)) store),
            Event.json 200
              (some ⟨"token", lib.jwtSign u._id lib.JWT_SECRET lib.JWT_EXPIRE,
                t + lib.JWT_COOKIE_EXPIRE * 24 * 60 * 60 * 1000, true,
                lib.NODE_ENV == "production"⟩)
              (Body.token (lib.jwtSign u._id lib.JWT_SECRET lib.JWT_EXPIRE))]⟩
      else
        ⟨mapId u._id (setReset (lib.sha256 p) (T + 600000)) store,
          [Event.next (Thrown.errorResponse ⟨"Invalid token", 400⟩)]⟩ := by
  have h1 : ∀ r : User, persist (getResetPasswordToken lib p T (load false u)).2 r =
      setReset (lib.sha256 p) (T + 600000) r := by
    intro r; cases r; simp [persist, getResetPasswordToken, load, setReset]
  have hfind := findByResetToken_issued store u (lib.sha256 p) (T + 600000) t hid hu hdig
  refine ⟨rfl, ?_, mem_mapId _ _ _ _ hu rfl, ?_⟩
  · rw [save_unselected lib salt0 store _ rfl rfl, funext h1,
      ← updateOne_eq_mapId _ _ _ hid]
    rfl
  · by_cases ht : t < T + 600000
    · rw [if_pos ht] at hfind ⊢
      rw [resetPassword_found lib salt t _ p pw _ hfind hs hpw]
      have hs : updateOne (setReset (lib.sha256 p) (T + 600000) u)._id
          (setPassword (lib.bcryptHash pw salt))
          (mapId u._id (setReset (lib.sha256 p) (T + 600000)) store) =
          mapId u._id (setPassword (lib.bcryptHash pw salt)) store := by
        rw [← updateOne_eq_mapId _ _ _ hid, ← updateOne_eq_mapId _ _ _ hid]
        show updateOne u._id _ _ = _
        rw [updateOne_updateOne _ _ _ (fun r => by cases r; rfl)]
        rfl
      rw [hs]
      rfl
    · rw [if_neg ht] at hfind ⊢
      exact resetPassword_not_found lib salt t _ p (some pw) hfind

/-- Witness of C7: the sample user, a token issued at 1000 and redeemed
at 600999. -/
theorem reset_token_window_witness :
    (getResetPasswordToken sampleLib "tok" 1000 (load false sampleUser)).1 = "tok" ∧
    save sampleLib "s1" false [sampleUser2, sampleUser]
        (getResetPasswordToken sampleLib "tok" 1000 (load false sampleUser)).2 =
      Except.ok
        (mapId sampleUser._id (setReset (sampleLib.sha256 "tok") (1000 + 600000))
          [sampleUser2, sampleUser],
        (getResetPasswordToken sampleLib "tok" 1000 (load false sampleUser)).2) ∧
    setReset (sampleLib.sha256 "tok") (1000 + 600000) sampleUser ∈
      mapId sampleUser._id (setReset (sampleLib.sha256 "tok") (1000 + 600000))
        [sampleUser2, sampleUser] ∧
    resetPassword sampleLib "s3" 600999
        (mapId sampleUser._id (setReset (sampleLib.sha256 "tok") (1000 + 600000))
          [sampleUser2, sampleUser]) "tok" (some "newpass") =
      if 600999 < 1000 + 600000 then
        ⟨mapId sampleUser._id (setPassword (sampleLib.bcryptHash "newpass" "s3"))
            [sampleUser2, sampleUser],
          [Event.save (mapId sampleUser._id (setPassword (sampleLib.bcryptHash "newpass" "s3"))
              [sampleUser2, sampleUser]),
            Event.json 200
              (some ⟨"token",
                sampleLib.jwtSign sampleUser._id sampleLib.JWT_SECRET sampleLib.JWT_EXPIRE,
                600999 + sampleLib.JWT_COOKIE_EXPIRE * 24 * 60 * 60 * 1000, true,
                sampleLib.NODE_ENV == "production"⟩)
              (Body.token
                (sampleLib.jwtSign sampleUser._id sampleLib.JWT_SECRET
                  sampleLib.JWT_EXPIRE))]⟩
      else
        ⟨mapId sampleUser._id (setReset (sampleLib.sha256 "tok") (1000 + 600000))
            [sampleUser2, sampleUser],
          [Event.next (Thrown.errorResponse ⟨"Invalid token", 400⟩)]⟩ :=
  reset_token_window sampleLib "tok" "newpass" "s1" "s3" 1000 600999
    [sampleUser2, sampleUser] sampleUser (by decide) (by decide) (by decide) (by decide)
    (by decide)

/-- C7 fails as stated: a token is issued at 1000 and redeemed at 1000,
inside the window.  For the sample user with the new password `12345`,
or with no password in the body, the save is rejected by the validators
of `password`; for a stored record with the role `admin` and the new
password `newpass` it is rejected by the `enum` of `role`.  Each time
`resetPassword` passes the validation error to `next` and changes
nothing. -/
theorem reset_in_window_rejects_invalid_password :
    save sampleLib "s1" false [sampleUser]
        (getResetPasswordToken sampleLib "tok" 1000 (load false sampleUser)).2 =
      Except.ok
        ([setReset "sha256(tok)" 601000 sampleUser],
        (getResetPasswordToken sampleLib "tok" 1000 (load false sampleUser)).2) ∧
    resetPassword sampleLib "s3" 1000 [setReset "sha256(tok)" 601000 sampleUser] "tok"
        (some "12345") =
      ⟨[setReset "sha256(tok)" 601000 sampleUser],
        [Event.next (Thrown.validationError [("password", "minlength")])]⟩ ∧
    resetPassword sampleLib "s3" 1000 [setReset "sha256(tok)" 601000 sampleUser] "tok"
        none =
      ⟨[setReset "sha256(tok)" 601000 sampleUser],
        [Event.next (Thrown.validationError [("password", "required")])]⟩ ∧
    save sampleLib "s1" false [sampleAdmin]
        (getResetPasswordToken sampleLib "tok" 1000 (load false sampleAdmin)).2 =
      Except.ok
        ([setReset "sha256(tok)" 601000 sampleAdmin],
        (getResetPasswordToken sampleLib "tok" 1000 (load false sampleAdmin)).2) ∧
    resetPassword sampleLib "s3" 1000 [setReset "sha256(tok)" 601000 sampleAdmin] "tok"
        (some "newpass") =
      ⟨[setReset "sha256(tok)" 601000 sampleAdmin],
        [Event.next (Thrown.validationError [("role", "enum")])]⟩ :=
  ⟨by rfl, by decide, by decide, by rfl, by decide⟩

/-- Once the found record is cleared, no record holds the digest, when
ids are unique and the records holding the digest share one id. -/
theorem digest_cleared (store : Store) (u : User) (d hash : String) (t : Nat)
    (hdig : ∀ a ∈ store, ∀ b ∈ store, a.resetPasswordToken = some d →
      b.resetPasswordToken = some d → a._id = b._id)
    (h : findByResetToken store d t = some u) :
    ∀ v ∈ mapId u._id (setPassword hash) store, v.resetPasswordToken ≠ some d := by
  have hmem : u ∈ store := List.mem_of_find?_eq_some h
  have hud : u.resetPasswordToken = some d := by
    have := List.find?_some h
    simp only [Bool.and_eq_true, beq_iff_eq] at this
    exact this.1
  intro v hv
  unfold mapId at hv
  obtain ⟨r, hr, rfl⟩ := List.mem_map.mp hv
  by_cases hid : r._id = u._id
  · simp [hid, setPassword]
  · simp only [hid, if_false]
    intro hrd
    exact hid (hdig r hr u hmem hrd hud)

/-- Issuing a token whose digest no record holds keeps the digests of
distinct records distinct. -/
theorem fresh_token_keeps_digests_distinct (store : Store) (id d0 : String) (e : Nat)
    (hdist : ∀ a ∈ store, ∀ b ∈ store, ∀ d, a.resetPasswordToken = some d →
      b.resetPasswordToken = some d → a._id = b._id)
    (hfresh : ∀ v ∈ store, v.resetPasswordToken ≠ some d0) :
    ∀ a ∈ mapId id (setReset d0 e) store, ∀ b ∈ mapId id (setReset d0 e) store, ∀ d,
      a.resetPasswordToken = some d → b.resetPasswordToken = some d → a._id = b._id := by
  intro a ha b hb d hda hdb
  unfold mapId at ha hb
  obtain ⟨r, hr, rfl⟩ := List.mem_map.mp ha
  obtain ⟨q, hq, rfl⟩ := List.mem_map.mp hb
  by_cases h1 : r._id = id <;> by_cases h2 : q._id = id
  · simp [h1, h2, setReset]
  · simp only [h1, h2, if_true, if_false] at hda hdb ⊢
    have : d = d0 := by simpa [setReset] using hda.symm
    exact absurd (this ▸ hdb) (hfresh q hq)
  · simp only [h1, h2, if_true, if_false] at hda hdb ⊢
    have : d = d0 := by simpa [setReset] using hdb.symm
    exact absurd (this ▸ hda) (hfresh r hr)
  · simp only [h1, h2, if_false] at hda hdb ⊢
    exact hdist r hr q hq d hda hdb

/-- C8: in a collection with unique ids where no two records hold the
digest of `p` (digests are written only by `getResetPasswordToken`, from
fresh random tokens), a `resetPassword` with `p` that sends its 200
response has written, in one save, the hash of the new password and the
absence of both reset fields on the record it found, and every later
`resetPassword` with `p`, at any time and with any password, passes
Invalid token, 400, to `next` and leaves the collection as it is. -/
theorem reset_token_single_use (lib : Lib) (salt : String) (t : Nat) (store : Store)
    (p : String) (password : Option String) (c : Option Cookie) (b : Body)
    (hid : uniqueIds store)
    (hdig : ∀ a ∈ store, ∀ b ∈ store, a.resetPasswordToken = some (lib.sha256 p) →
      b.resetPasswordToken = some (lib.sha256 p) → a._id = b._id)
    (hok : Event.json 200 c b ∈ (resetPassword lib salt t store p password).events) :
    (∃ u pw, u ∈ store ∧ u.resetPasswordToken = some (lib.sha256 p) ∧ password = some pw ∧
      setPassword (lib.bcryptHash pw salt) u ∈
        mapId u._id (setPassword (lib.bcryptHash pw salt)) store ∧
      resetPassword lib salt t store p password =
        ⟨mapId u._id (setPassword (lib.bcryptHash pw salt)) store,
          [Event.save (mapId u._id (setPassword (lib.bcryptHash pw salt)) store),
            Event.json 200 c b]⟩) ∧
    ∀ (salt2 : String) (t2 : Nat) (password2 : Option String),
      resetPassword lib salt2 t2 (resetPassword lib salt t store p password).store p password2 =
        ⟨(resetPassword lib salt t store p password).store,
          [Event.next (Thrown.errorResponse ⟨"Invalid token", 400⟩)]⟩ := by
  cases hf : findByResetToken store (lib.sha256 p) t with
  | none =>
    rw [resetPassword_not_found lib salt t store p password hf] at hok
    simp at hok
  | some u =>
    have hmem : u ∈ store := List.mem_of_find?_eq_some hf
    have hud : u.resetPasswordToken = some (lib.sha256 p) := by
      have := List.find?_some hf
      simp only [Bool.and_eq_true, beq_iff_eq] at this
      exact this.1
    cases hv : validate
        { load false u with
          password := password
          passwordModified := true
          resetPasswordToken := none
          resetPasswordExpire := none } with
    | some e =>
      rw [resetPassword_invalid lib salt t store p password u e hf hv] at hok
      simp at hok
    | none =>
      obtain ⟨hs, pw, rfl, hlen⟩ := (validate_reset_doc u password).mp hv
      have hrun := resetPassword_found lib salt t store p pw u hf hs hlen
      rw [updateOne_eq_mapId _ _ _ hid] at hrun
      rw [hrun] at hok ⊢
      simp only [List.mem_cons, List.mem_singleton, reduceCtorEq, false_or,
        List.not_mem_nil, or_false] at hok
      refine ⟨⟨u, pw, hmem, hud, rfl, mem_mapId _ _ _ _ hmem rfl, ?_⟩, ?_⟩
      · rw [hok]
      · intro salt2 t2 password2
        exact resetPassword_not_found lib salt2 t2 _ p password2
          (findByResetToken_none _ _ _ (digest_cleared store u _ _ t hdig hf))

/-- Witness of C8: the sample user redeems the token `tok` at 2000. -/
theorem reset_token_single_use_witness :
    (∃ u pw, u ∈ [sampleUser2, setReset "sha256(tok)" 601000 sampleUser] ∧
      u.resetPasswordToken = some (sampleLib.sha256 "tok") ∧ some "newpass" = some pw ∧
      setPassword (sampleLib.bcryptHash pw "s3") u ∈
        mapId u._id (setPassword (sampleLib.bcryptHash pw "s3"))
          [sampleUser2, setReset "sha256(tok)" 601000 sampleUser] ∧
      resetPassword sampleLib "s3" 2000 [sampleUser2, setReset "sha256(tok)" 601000 sampleUser]
          "tok" (some "newpass") =
        ⟨mapId u._id (setPassword (sampleLib.bcryptHash pw "s3"))
            [sampleUser2, setReset "sha256(tok)" 601000 sampleUser],
          [Event.save (mapId u._id (setPassword (sampleLib.bcryptHash pw "s3"))
              [sampleUser2, setReset "sha256(tok)" 601000 sampleUser]),
            Event.json 200 (some ⟨"token", "jwt(u1,secret,30d)", 2592002000, true, false⟩)
              (Body.token "jwt(u1,secret,30d)")]⟩) ∧
    ∀ (salt2 : String) (t2 : Nat) (password2 : Option String),
      resetPassword sampleLib salt2 t2
          (resetPassword sampleLib "s3" 2000
            [sampleUser2, setReset "sha256(tok)" 601000 sampleUser] "tok"
            (some "newpass")).store "tok" password2 =
        ⟨(resetPassword sampleLib "s3" 2000
            [sampleUser2, setReset "sha256(tok)" 601000 sampleUser] "tok"
            (some "newpass")).store,
          [Event.next (Thrown.errorResponse ⟨"Invalid token", 400⟩)]⟩ :=
  reset_token_single_use sampleLib "s3" 2000
    [sampleUser2, setReset "sha256(tok)" 601000 sampleUser] "tok" (some "newpass")
    (some ⟨"token", "jwt(u1,secret,30d)", 2592002000, true, false⟩)
    (Body.token "jwt(u1,secret,30d)") (by decide) (by decide) (by decide)

end DevCamper
